import Mathlib

/-!
Shallow embedding of `metis_wizard/metis_wizard.py` (the FESOM METIS wizard).

A namelist document (`f90nml.Namelist`) is modelled as an association list of
sections, each section an association list of fields holding scalar values.
Assigning `nml[sec][field] = v` in Python raises `KeyError` when the section
is absent and otherwise creates or overwrites the field, preserving insertion
order; `setField` mirrors that with `Option`.  The partitioner subprocess and
the executable lookup `shutil.which` are external: they enter the model as
oracle parameters (`exitCode`, `which`).  The filesystem touched by
`nml.write("namelist.config", force=True)` is an association list of file
names to documents.
-/

/-- Scalar values a namelist field can hold (strings, integers, reals,
booleans); reals are represented as rationals since the wizard only passes
them through unchanged. -/
inductive NmlValue where
  | str (s : String)
  | int (n : Int)
  | rat (q : Rat)
  | bool (b : Bool)
  deriving DecidableEq

/-- One namelist section: ordered field/value pairs. -/
abbrev NmlSection := List (String × NmlValue)

/-- A namelist document: ordered section name/section pairs. -/
abbrev NmlDoc := List (String × NmlSection)

/-- Python dict assignment inside an existing section: overwrite the field in
place if present (keeping its position), else append it. -/
def setInSection : NmlSection → String → NmlValue → NmlSection
  | [], f, v => [(f, v)]
  | (k, w) :: rest, f, v =>
      if k = f then (k, v) :: rest else (k, w) :: setInSection rest f v

/-- Look up a field inside a section. -/
def lookupF : NmlSection → String → Option NmlValue
  | [], _ => none
  | (k, w) :: rest, f => if k = f then some w else lookupF rest f

/-- Look up a section of a document. -/
def lookupSec : NmlDoc → String → Option NmlSection
  | [], _ => none
  | (k, sec) :: rest, s => if k = s then some sec else lookupSec rest s

/-- `nml[s][f] = v`: `none` models the `KeyError` Python raises when section
`s` is absent; otherwise the field is created or overwritten. -/
def setField : NmlDoc → String → String → NmlValue → Option NmlDoc
  | [], _, _, _ => none
  | (k, sec) :: rest, s, f, v =>
      if k = s then some ((k, setInSection sec f v) :: rest)
      else (setField rest s f v).map (fun d => (k, sec) :: d)

/-- `nml[s][f]`: read a field of a document. -/
def getField (d : NmlDoc) (s f : String) : Option NmlValue :=
  (lookupSec d s).bind (fun sec => lookupF sec f)

/-- `MetisNamelist.set_mesh`: `self["paths"]["meshpath"] = mesh_path`. -/
def set_mesh (d : NmlDoc) (mesh_path : String) : Option NmlDoc :=
  setField d "paths" "meshpath" (.str mesh_path)

/-- `MetisNamelist.set_partitioning`: `self["machine"]["n_levels"] = 1` then
`self["machine"]["n_part"] = n_part`. -/
def set_partitioning (d : NmlDoc) (n_part : Int) : Option NmlDoc :=
  (setField d "machine" "n_levels" (.int 1)).bind
    (fun d1 => setField d1 "machine" "n_part" (.int n_part))

/-- Helper for the `if alpha is not None:` guards of `prepare_namelist`: an
absent angle leaves the document untouched, a present one is assigned. -/
def setOpt (d : NmlDoc) (s f : String) : Option NmlValue → Option NmlDoc
  | none => some d
  | some v => setField d s f v

/-- `prepare_namelist` after the template has been loaded (the load itself is
the only I/O and is external to the apply steps): set mesh path and
partitioning, then each Euler angle that was supplied, then the three cavity
fields when `use_cavity` is set. -/
def prepare_namelist (template : NmlDoc) (mesh_path : String) (n_part : Int)
    (alpha beta gamma : Option NmlValue) (use_cavity : Bool) : Option NmlDoc :=
  (set_mesh template mesh_path).bind fun d1 =>
  (set_partitioning d1 n_part).bind fun d2 =>
  (setOpt d2 "geometry" "alphaeuler" alpha).bind fun d3 =>
  (setOpt d3 "geometry" "betaeuler" beta).bind fun d4 =>
  (setOpt d4 "geometry" "gammaeuler" gamma).bind fun d5 =>
  if use_cavity then
    (setField d5 "ale_def" "use_partial_cell" (.bool true)).bind fun d6 =>
    (setField d6 "run_config" "use_cavity" (.bool true)).bind fun d7 =>
    setField d7 "run_config" "use_cavity_partial_cell" (.bool true)
  else
    some d5

/-- Errors the wizard can raise: `KeyError` from a missing namelist section,
`subprocess.CalledProcessError` from `subprocess.run(..., check=True)` (the
spec's "PartitionExecutionError"), and `MetisPartitionerError` from the
`MetisPartitioner` constructor (the spec's "ExecutableNotFoundError"). -/
inductive PartitionError where
  | keyError (section_name : String)
  | calledProcessError (code : Nat)
  | metisPartitionerError (msg : String)
  deriving DecidableEq

/-- The working directory: file names mapped to written documents. -/
abbrev FileSystem := List (String × NmlDoc)

/-- `nml.write(name, force=True)`: overwrite the file if present, else create
it. -/
def writeFile : FileSystem → String → NmlDoc → FileSystem
  | [], name, d => [(name, d)]
  | (k, w) :: rest, name, d =>
      if k = name then (k, d) :: rest else (k, w) :: writeFile rest name d

/-- Read a file of the working directory. -/
def readFS : FileSystem → String → Option NmlDoc
  | [], _ => none
  | (k, w) :: rest, name => if k = name then some w else readFS rest name

/-- `MetisPartitioner.partition_mesh`: prepare the namelist, write it to
`namelist.config`, then run the partitioner binary; `exitCode` is the oracle
for the child process's exit status, and `check=True` turns a non-zero status
into `subprocess.CalledProcessError`.  The filesystem component records the
side effects that persist even when the error propagates. -/
def partition_mesh (template : NmlDoc) (mesh_path : String) (n_part : Int)
    (alpha beta gamma : Option NmlValue) (use_cavity : Bool)
    (exitCode : Nat) (fs : FileSystem) :
    FileSystem × Except PartitionError Unit :=
  match prepare_namelist template mesh_path n_part alpha beta gamma use_cavity with
  | none => (fs, .error (.keyError "namelist section missing"))
  | some nml =>
      let fs1 := writeFile fs "namelist.config" nml
      if exitCode = 0 then (fs1, .ok ()) else
        (fs1, .error (.calledProcessError exitCode))

/-- `bin or self._BIN`: Python `or` replaces a falsy `bin` (`None` or the
empty string) by the class default `"fesom_ini"`. -/
def resolvedBin (bin : Option String) : String :=
  match bin with
  | none => "fesom_ini"
  | some s => if s = "" then "fesom_ini" else s

/-- `MetisPartitioner.__init__`: resolve the binary name, then
`assert shutil.which(self.bin)`; a failed lookup becomes
`MetisPartitionerError(f"{self.bin} not found on PATH.")`.  `which` is the
oracle for PATH lookup. -/
def MetisPartitioner.init (bin : Option String) (which : String → Bool) :
    Except PartitionError String :=
  let b := resolvedBin bin
  if which b then .ok b else .error (.metisPartitionerError (b ++ " not found on PATH."))

/-- The `for n in n_part:` loop of `main`: each count runs
`partitoner.partition_mesh(mesh, n, ...)`.  There is no exception handler, so
the first error aborts the loop.  Returns the final filesystem, the list of
counts for which a partition run was attempted (in order), and the
propagated error, if any. -/
def mainLoop (template : NmlDoc) (mesh_path : String)
    (alpha beta gamma : Option NmlValue) (use_cavity : Bool)
    (exitCode : Int → Nat) :
    List Int → FileSystem → FileSystem × List Int × Option PartitionError
  | [], fs => (fs, [], none)
  | n :: rest, fs =>
      match partition_mesh template mesh_path n alpha beta gamma use_cavity (exitCode n) fs with
      | (fs1, .ok _) =>
          let r := mainLoop template mesh_path alpha beta gamma use_cavity exitCode rest fs1
          (r.1, n :: r.2.1, r.2.2)
      | (fs1, .error e) => (fs1, [n], some e)

/-- The body of `main` after CLI parsing: `n_part = n_part or [288]`, then
`MetisPartitioner(bin=fesom_ini)` (which runs before any file is written),
then the partition loop. -/
def main_run (template : NmlDoc) (mesh_path : String) (counts : List Int)
    (alpha beta gamma : Option NmlValue) (use_cavity : Bool)
    (fesom_ini : Option String) (which : String → Bool) (exitCode : Int → Nat)
    (fs : FileSystem) : FileSystem × List Int × Option PartitionError :=
  let counts1 := if counts = [] then [288] else counts
  match MetisPartitioner.init fesom_ini which with
  | .error e => (fs, [], some e)
  | .ok _ =>
      mainLoop template mesh_path alpha beta gamma use_cavity exitCode counts1 fs

/-- An element of the Python list `n_part` in `main`'s interactive flow: the
checkbox answers are integers, while `n_part += text_answer` extends the list
with the individual characters of the entered string. -/
inductive PyListElem where
  | int (n : Int)
  | char (c : Char)
  deriving DecidableEq

/-- Python `n_part += s` for a list `n_part` and string `s`: the string is
iterated character by character and each character is appended. -/
def pyListAddStr (l : List PyListElem) (s : String) : List PyListElem :=
  l ++ s.toList.map PyListElem.char

/-- Python `int(n)` as used by `n_part = [int(n) for n in n_part]`: an
integer element is unchanged, a single-digit character parses to its digit
value, anything else raises `ValueError`. -/
def pyIntOf : PyListElem → Option Int
  | .int n => some n
  | .char c => if c.isDigit then some ((c.toNat : Int) - 48) else none

/-- Modelled from the spec: the bundled `namelist.config` template is packaged
data, not under `src/`; the spec records only that it is a namelist document
with sections `paths`, `machine`, `geometry`, `ale_def` and `run_config`
containing the fields the wizard touches.  A representative such template,
used for concrete witnesses and counterexamples. -/
def templateDoc : NmlDoc :=
  [("paths", [("meshpath", .str "./mesh/")]),
   ("machine", [("n_levels", .int 2), ("n_part", .int 12)]),
   ("geometry", [("alphaeuler", .rat 0), ("betaeuler", .rat 0), ("gammaeuler", .rat 0)]),
   ("ale_def", [("use_partial_cell", .bool false)]),
   ("run_config",
     [("use_cavity", .bool false), ("use_cavity_partial_cell", .bool false),
      ("restart_length", .int 1)])]

/-- The section/field pairs `prepare_namelist` may write. -/
def touchedField (s f : String) : Prop :=
  (s = "paths" ∧ f = "meshpath") ∨
  (s = "machine" ∧ f = "n_levels") ∨
  (s = "machine" ∧ f = "n_part") ∨
  (s = "geometry" ∧ f = "alphaeuler") ∨
  (s = "geometry" ∧ f = "betaeuler") ∨
  (s = "geometry" ∧ f = "gammaeuler") ∨
  (s = "ale_def" ∧ f = "use_partial_cell") ∨
  (s = "run_config" ∧ f = "use_cavity") ∨
  (s = "run_config" ∧ f = "use_cavity_partial_cell")

instance (s f : String) : Decidable (touchedField s f) := by
  unfold touchedField; infer_instance

/-! ## Association-list lemmas for field assignment -/

theorem lookupF_setInSection_self (sec : NmlSection) (f : String) (v : NmlValue) :
    lookupF (setInSection sec f v) f = some v := by
  induction sec with
  | nil => simp [setInSection, lookupF]
  | cons kv rest ih =>
      obtain ⟨k, w⟩ := kv
      by_cases hk : k = f
      · simp [setInSection, hk, lookupF]
      · simp [setInSection, hk, lookupF, ih]

theorem lookupF_setInSection_ne (sec : NmlSection) (f g : String) (v : NmlValue)
    (hg : g ≠ f) : lookupF (setInSection sec f v) g = lookupF sec g := by
  induction sec with
  | nil => simp [setInSection, lookupF, Ne.symm hg]
  | cons kv rest ih =>
      obtain ⟨k, w⟩ := kv
      by_cases hk : k = f
      · subst hk
        simp [setInSection, lookupF, Ne.symm hg]
      · simp [setInSection, hk, lookupF, ih]

theorem setInSection_idem (sec : NmlSection) (f : String) (v : NmlValue) :
    setInSection (setInSection sec f v) f v = setInSection sec f v := by
  induction sec with
  | nil => simp [setInSection]
  | cons kv rest ih =>
      obtain ⟨k, w⟩ := kv
      by_cases hk : k = f
      · simp [setInSection, hk]
      · simp [setInSection, hk, ih]

theorem setField_isSome (d : NmlDoc) (s f : String) (v : NmlValue) :
    (setField d s f v).isSome = (lookupSec d s).isSome := by
  induction d with
  | nil => simp [setField, lookupSec]
  | cons kv rest ih =>
      obtain ⟨k, sec⟩ := kv
      by_cases hk : k = s
      · simp [setField, lookupSec, hk]
      · simp [setField, lookupSec, hk, ih]

theorem lookupSec_setField_self (d d' : NmlDoc) (s f : String) (v : NmlValue)
    (h : setField d s f v = some d') :
    ∃ sec, lookupSec d s = some sec ∧ lookupSec d' s = some (setInSection sec f v) := by
  induction d generalizing d' with
  | nil => simp [setField] at h
  | cons kv rest ih =>
      obtain ⟨k, sec⟩ := kv
      by_cases hk : k = s
      · subst hk
        simp [setField] at h
        subst h
        exact ⟨sec, by simp [lookupSec], by simp [lookupSec]⟩
      · simp only [setField, if_neg hk, Option.map_eq_some'] at h
        obtain ⟨d'', hd'', rfl⟩ := h
        obtain ⟨sec', h1, h2⟩ := ih d'' hd''
        exact ⟨sec', by simp [lookupSec, hk, h1], by simp [lookupSec, hk, h2]⟩

theorem lookupSec_setField_ne (d d' : NmlDoc) (s t f : String) (v : NmlValue)
    (h : setField d s f v = some d') (hts : t ≠ s) :
    lookupSec d' t = lookupSec d t := by
  induction d generalizing d' with
  | nil => simp [setField] at h
  | cons kv rest ih =>
      obtain ⟨k, sec⟩ := kv
      by_cases hk : k = s
      · subst hk
        simp [setField] at h
        subst h
        simp [lookupSec, Ne.symm hts]
      · simp only [setField, if_neg hk, Option.map_eq_some'] at h
        obtain ⟨d'', hd'', rfl⟩ := h
        simp [lookupSec, ih d'' hd'']

theorem getField_setField_self (d d' : NmlDoc) (s f : String) (v : NmlValue)
    (h : setField d s f v = some d') : getField d' s f = some v := by
  obtain ⟨sec, _, h2⟩ := lookupSec_setField_self d d' s f v h
  simp [getField, h2, lookupF_setInSection_self]

theorem getField_setField_frame (d d' : NmlDoc) (s f : String) (v : NmlValue)
    (t g : String) (h : setField d s f v = some d') (hne : t ≠ s ∨ g ≠ f) :
    getField d' t g = getField d t g := by
  by_cases hts : t = s
  · subst hts
    rcases hne with hts' | hgf
    · exact absurd rfl hts'
    · obtain ⟨sec, h1, h2⟩ := lookupSec_setField_self d d' t f v h
      simp [getField, h1, h2, lookupF_setInSection_ne _ _ _ _ hgf]
  · rw [getField, getField, lookupSec_setField_ne d d' s t f v h hts]

theorem setField_idem (d d' : NmlDoc) (s f : String) (v : NmlValue)
    (h : setField d s f v = some d') : setField d' s f v = some d' := by
  induction d generalizing d' with
  | nil => simp [setField] at h
  | cons kv rest ih =>
      obtain ⟨k, sec⟩ := kv
      by_cases hk : k = s
      · subst hk
        simp [setField] at h
        subst h
        simp [setField, setInSection_idem]
      · simp only [setField, if_neg hk, Option.map_eq_some'] at h
        obtain ⟨d'', hd'', rfl⟩ := h
        simp [setField, hk, ih d'' hd'']

theorem getField_setOpt_frame (d d' : NmlDoc) (s f t g : String) (o : Option NmlValue)
    (h : setOpt d s f o = some d') (hne : t ≠ s ∨ g ≠ f) :
    getField d' t g = getField d t g := by
  cases o with
  | none =>
      simp only [setOpt, Option.some.injEq] at h
      subst h; rfl
  | some a => exact getField_setField_frame d d' s f a t g h hne

theorem getField_setOpt_self (d d' : NmlDoc) (s f : String) (a : NmlValue)
    (h : setOpt d s f (some a) = some d') : getField d' s f = some a :=
  getField_setField_self d d' s f a h

theorem readFS_writeFile_self (fs : FileSystem) (name : String) (d : NmlDoc) :
    readFS (writeFile fs name d) name = some d := by
  induction fs with
  | nil => simp [writeFile, readFS]
  | cons kv rest ih =>
      obtain ⟨k, w⟩ := kv
      by_cases hk : k = name
      · simp [writeFile, readFS, hk]
      · simp [writeFile, readFS, hk, ih]

/-! ## Decomposition of `prepare_namelist` into its assignment steps -/

theorem prepare_namelist_chain (template : NmlDoc) (p : String) (n : Int)
    (oa ob oc : Option NmlValue) (cav : Bool) (d' : NmlDoc)
    (h : prepare_namelist template p n oa ob oc cav = some d') :
    ∃ d1 d2 d3 d4 d5,
      set_mesh template p = some d1 ∧
      set_partitioning d1 n = some d2 ∧
      setOpt d2 "geometry" "alphaeuler" oa = some d3 ∧
      setOpt d3 "geometry" "betaeuler" ob = some d4 ∧
      setOpt d4 "geometry" "gammaeuler" oc = some d5 ∧
      ((cav = false ∧ d' = d5) ∨
        (cav = true ∧ ∃ d6 d7,
          setField d5 "ale_def" "use_partial_cell" (.bool true) = some d6 ∧
          setField d6 "run_config" "use_cavity" (.bool true) = some d7 ∧
          setField d7 "run_config" "use_cavity_partial_cell" (.bool true) = some d')) := by
  simp only [prepare_namelist] at h
  rw [Option.bind_eq_some] at h
  obtain ⟨d1, h1, h⟩ := h
  rw [Option.bind_eq_some] at h
  obtain ⟨d2, h2, h⟩ := h
  rw [Option.bind_eq_some] at h
  obtain ⟨d3, h3, h⟩ := h
  rw [Option.bind_eq_some] at h
  obtain ⟨d4, h4, h⟩ := h
  rw [Option.bind_eq_some] at h
  obtain ⟨d5, h5, h⟩ := h
  refine ⟨d1, d2, d3, d4, d5, h1, h2, h3, h4, h5, ?_⟩
  cases cav with
  | false =>
      simp only [Bool.false_eq_true, if_false, Option.some.injEq] at h
      exact Or.inl ⟨rfl, h.symm⟩
  | true =>
      simp only [if_true] at h
      rw [Option.bind_eq_some] at h
      obtain ⟨d6, h6, h⟩ := h
      rw [Option.bind_eq_some] at h
      obtain ⟨d7, h7, h⟩ := h
      exact Or.inr ⟨rfl, d6, d7, h6, h7, h⟩

theorem getField_cavity_tail (d5 d' : NmlDoc) (cav : Bool) (t g : String)
    (hcav : (cav = false ∧ d' = d5) ∨
      (cav = true ∧ ∃ d6 d7,
        setField d5 "ale_def" "use_partial_cell" (.bool true) = some d6 ∧
        setField d6 "run_config" "use_cavity" (.bool true) = some d7 ∧
        setField d7 "run_config" "use_cavity_partial_cell" (.bool true) = some d'))
    (n1 : t ≠ "ale_def" ∨ g ≠ "use_partial_cell")
    (n2 : t ≠ "run_config" ∨ g ≠ "use_cavity")
    (n3 : t ≠ "run_config" ∨ g ≠ "use_cavity_partial_cell") :
    getField d' t g = getField d5 t g := by
  rcases hcav with ⟨_, rfl⟩ | ⟨_, d6, d7, h6, h7, h8⟩
  · rfl
  · rw [getField_setField_frame d7 d' _ _ _ t g h8 n3,
        getField_setField_frame d6 d7 _ _ _ t g h7 n2,
        getField_setField_frame d5 d6 _ _ _ t g h6 n1]

theorem getField_prepare_head (template d1 d2 d3 d4 d5 : NmlDoc) (p : String) (n : Int)
    (oa ob oc : Option NmlValue) (t g : String)
    (h1 : set_mesh template p = some d1)
    (h2 : set_partitioning d1 n = some d2)
    (h3 : setOpt d2 "geometry" "alphaeuler" oa = some d3)
    (h4 : setOpt d3 "geometry" "betaeuler" ob = some d4)
    (h5 : setOpt d4 "geometry" "gammaeuler" oc = some d5)
    (n1 : t ≠ "paths" ∨ g ≠ "meshpath")
    (n2 : t ≠ "machine" ∨ g ≠ "n_levels")
    (n3 : t ≠ "machine" ∨ g ≠ "n_part")
    (n4 : t ≠ "geometry" ∨ g ≠ "alphaeuler")
    (n5 : t ≠ "geometry" ∨ g ≠ "betaeuler")
    (n6 : t ≠ "geometry" ∨ g ≠ "gammaeuler") :
    getField d5 t g = getField template t g := by
  rw [set_partitioning, Option.bind_eq_some] at h2
  obtain ⟨dm, h2a, h2b⟩ := h2
  rw [getField_setOpt_frame d4 d5 "geometry" "gammaeuler" t g oc h5 n6,
      getField_setOpt_frame d3 d4 "geometry" "betaeuler" t g ob h4 n5,
      getField_setOpt_frame d2 d3 "geometry" "alphaeuler" t g oa h3 n4,
      getField_setField_frame dm d2 "machine" "n_part" (.int n) t g h2b n3,
      getField_setField_frame d1 dm "machine" "n_levels" (.int 1) t g h2a n2,
      getField_setField_frame template d1 "paths" "meshpath" (.str p) t g h1 n1]

theorem set_partitioning_spec (d : NmlDoc) (n : Int)
    (hm : (lookupSec d "machine").isSome = true) :
    (set_partitioning d n).isSome = true ∧
    (set_partitioning d n).bind (fun d2 => getField d2 "machine" "n_part")
      = some (.int n) ∧
    (set_partitioning d n).bind (fun d2 => getField d2 "machine" "n_levels")
      = some (.int 1) := by
  have h1 : (setField d "machine" "n_levels" (.int 1)).isSome = true := by
    rw [setField_isSome]; exact hm
  obtain ⟨d1, hd1⟩ := Option.isSome_iff_exists.mp h1
  have h2 : (setField d1 "machine" "n_part" (.int n)).isSome = true := by
    rw [setField_isSome]
    obtain ⟨sec, _, hs2⟩ := lookupSec_setField_self d d1 _ _ _ hd1
    simp [hs2]
  obtain ⟨d2, hd2⟩ := Option.isSome_iff_exists.mp h2
  have hsp : set_partitioning d n = some d2 := by
    rw [set_partitioning, hd1]
    exact hd2
  refine ⟨by simp [hsp], ?_, ?_⟩
  · rw [hsp]
    exact getField_setField_self d1 d2 _ _ _ hd2
  · rw [hsp]
    show getField d2 "machine" "n_levels" = some (.int 1)
    rw [getField_setField_frame d1 d2 "machine" "n_part" (.int n) "machine" "n_levels"
        hd2 (Or.inr (by decide))]
    exact getField_setField_self d d1 _ _ _ hd1

/-! ## Claim theorems -/

/-- C4: for every positive integer n and every starting template document
(with its `machine` section present, as any namelist template has), applying
the partition count n via `set_partitioning` succeeds and sets
`machine.n_part` to n and `machine.n_levels` to exactly 1, regardless of the
prior values of those fields. -/
theorem C4_set_partitioning_sets_counts (d : NmlDoc) (n : Int) (hn : 0 < n)
    (hm : (lookupSec d "machine").isSome = true) :
    (set_partitioning d n).isSome = true ∧
    (set_partitioning d n).bind (fun d2 => getField d2 "machine" "n_part")
      = some (.int n) ∧
    (set_partitioning d n).bind (fun d2 => getField d2 "machine" "n_levels")
      = some (.int 1) :=
  set_partitioning_spec d n hm

/-- Witness for C4 at the representative template and n = 288, whose prior
field values are `n_levels = 2` and `n_part = 12`. -/
theorem C4_witness :
    (set_partitioning templateDoc 288).isSome = true ∧
    (set_partitioning templateDoc 288).bind (fun d2 => getField d2 "machine" "n_part")
      = some (.int 288) ∧
    (set_partitioning templateDoc 288).bind (fun d2 => getField d2 "machine" "n_levels")
      = some (.int 1) :=
  C4_set_partitioning_sets_counts templateDoc 288 (by decide) rfl

/-- C2 counterexample: 0 is not a positive integer, yet `set_partitioning`
(the code behind "apply_partition_count") succeeds on it instead of failing:
there is no validation and no `InvalidPartitionCountError` anywhere in the
code. -/
theorem C2_counterexample :
    ¬ (0 < (0 : Int)) ∧ (set_partitioning templateDoc 0).isSome = true ∧
    (set_partitioning templateDoc 0).bind (fun d2 => getField d2 "machine" "n_part")
      = some (.int 0) :=
  ⟨by decide, rfl, rfl⟩

/-- C2 amended: `set_partitioning` performs no validation of the partition
count: for every integer n, positive or not, it succeeds on any document
whose `machine` section exists and stores n as given. -/
theorem C2_no_partition_count_validation (d : NmlDoc) (n : Int)
    (hm : (lookupSec d "machine").isSome = true) :
    (set_partitioning d n).isSome = true ∧
    (set_partitioning d n).bind (fun d2 => getField d2 "machine" "n_part")
      = some (.int n) :=
  ⟨(set_partitioning_spec d n hm).1, (set_partitioning_spec d n hm).2.1⟩

/-- Witness for the amended C2 at the representative template and the
non-positive count n = -7. -/
theorem C2_witness :
    (set_partitioning templateDoc (-7)).isSome = true ∧
    (set_partitioning templateDoc (-7)).bind (fun d2 => getField d2 "machine" "n_part")
      = some (.int (-7)) :=
  C2_no_partition_count_validation templateDoc (-7) rfl

/-- C8: `set_mesh` is idempotent: applying the same mesh path twice in
succession yields exactly the same document state as applying it once
(including the failure case, where both runs yield `none`). -/
theorem C8_set_mesh_idempotent (d : NmlDoc) (p : String) :
    (set_mesh d p).bind (fun d1 => set_mesh d1 p) = set_mesh d p := by
  cases h : set_mesh d p with
  | none => rfl
  | some d1 => exact setField_idem d d1 "paths" "meshpath" (.str p) h

/-- C6: for every partition request whose child process exits with a non-zero
code, `partition_mesh` raises the error for a non-zero child exit (the spec's
PartitionExecutionError, `subprocess.CalledProcessError` in the code) and the
`namelist.config` written for that request remains on disk: it is written
before the subprocess is spawned and is not cleaned up on failure. -/
theorem C6_failed_run_raises_and_keeps_config (template : NmlDoc) (p : String)
    (n : Int) (oa ob oc : Option NmlValue) (cav : Bool) (code : Nat)
    (fs : FileSystem) (nml : NmlDoc)
    (hprep : prepare_namelist template p n oa ob oc cav = some nml)
    (hcode : code ≠ 0) :
    partition_mesh template p n oa ob oc cav code fs
      = (writeFile fs "namelist.config" nml, .error (.calledProcessError code)) ∧
    readFS (partition_mesh template p n oa ob oc cav code fs).1 "namelist.config"
      = some nml := by
  have hrun : partition_mesh template p n oa ob oc cav code fs
      = (writeFile fs "namelist.config" nml, .error (.calledProcessError code)) := by
    simp only [partition_mesh, hprep]
    simp [hcode]
  exact ⟨hrun, by rw [hrun]; exact readFS_writeFile_self fs "namelist.config" nml⟩

/-- Witness for C6: on the representative template with exit code 1 and an
empty working directory, the run fails and `namelist.config` holds the
prepared namelist. -/
theorem C6_witness :
    partition_mesh templateDoc "/data/mesh1" 288 none none none false 1 []
      = (writeFile [] "namelist.config"
          ((prepare_namelist templateDoc "/data/mesh1" 288 none none none false).getD []),
         .error (.calledProcessError 1)) ∧
    readFS (partition_mesh templateDoc "/data/mesh1" 288 none none none false 1 []).1
        "namelist.config"
      = some ((prepare_namelist templateDoc "/data/mesh1" 288 none none none false).getD []) :=
  C6_failed_run_raises_and_keeps_config templateDoc "/data/mesh1" 288 none none none
    false 1 []
    ((prepare_namelist templateDoc "/data/mesh1" 288 none none none false).getD [])
    rfl (by decide)

/-- C1 counterexample: with requested counts [144, 288] where the subprocess
for 144 exits with code 1 and the one for 288 would succeed, the loop of
`main` attempts only [144]: the failure stops the loop and 288 is never
attempted, contradicting the claim that remaining counts are still
attempted. -/
theorem C1_counterexample :
    (mainLoop templateDoc "/data/mesh1" none none none false
        (fun k => if k = 144 then 1 else 0) [144, 288] []).2.1 = [144] ∧
    ¬ ((288 : Int) ∈ (mainLoop templateDoc "/data/mesh1" none none none false
        (fun k => if k = 144 then 1 else 0) [144, 288] []).2.1) := by
  have h : (mainLoop templateDoc "/data/mesh1" none none none false
      (fun k => if k = 144 then 1 else 0) [144, 288] []).2.1 = [144] := rfl
  exact ⟨h, by rw [h]; decide⟩

/-- C1 amended: when the partitioner subprocess for one count exits non-zero,
the resulting error propagates out of the calling loop, which has no
exception handler: the loop stops with exactly that count attempted, and the
remaining counts in the sequence are NOT attempted. -/
theorem C1_subprocess_failure_stops_loop (template : NmlDoc) (p : String)
    (oa ob oc : Option NmlValue) (cav : Bool) (ec : Int → Nat)
    (n : Int) (rest : List Int) (fs fs1 : FileSystem) (e : PartitionError)
    (h : partition_mesh template p n oa ob oc cav (ec n) fs = (fs1, .error e)) :
    mainLoop template p oa ob oc cav ec (n :: rest) fs = (fs1, [n], some e) := by
  simp [mainLoop, h]

/-- Witness for the amended C1: the failing count 144 is followed by 288,
which never runs. -/
theorem C1_witness :
    mainLoop templateDoc "/data/mesh1" none none none false
        (fun k => if k = 144 then 1 else 0) (144 :: [288]) []
      = ((partition_mesh templateDoc "/data/mesh1" 144 none none none false 1 []).1,
         [144], some (.calledProcessError 1)) :=
  C1_subprocess_failure_stops_loop templateDoc "/data/mesh1" none none none false
    (fun k => if k = 144 then 1 else 0) 144 [288] []
    (partition_mesh templateDoc "/data/mesh1" 144 none none none false 1 []).1
    (.calledProcessError 1) rfl

/-- C9: in the interactive flow of `main`, `n_part += entered` extends the
Python list with the entered string character by character: for an entered
string of k digits, k single-character elements are appended after the
original list, and `int(...)` later maps each to its one-digit value
(character code minus 48), not to one k-digit count. -/
theorem C9_interactive_custom_counts_split (l : List PyListElem) (s : String)
    (h : ∀ c ∈ s.toList, c.isDigit = true) :
    (pyListAddStr l s).length = l.length + s.length ∧
    (pyListAddStr l s).take l.length = l ∧
    ((pyListAddStr l s).drop l.length).map pyIntOf
      = s.toList.map (fun c => some ((c.toNat : Int) - 48)) := by
  refine ⟨?_, ?_, ?_⟩
  · show (l ++ s.toList.map PyListElem.char).length = l.length + s.length
    rw [List.length_append, List.length_map]
    rfl
  · show (l ++ s.toList.map PyListElem.char).take l.length = l
    exact List.take_left l (s.toList.map PyListElem.char)
  · show ((l ++ s.toList.map PyListElem.char).drop l.length).map pyIntOf
      = s.toList.map (fun c => some ((c.toNat : Int) - 48))
    rw [List.drop_left, List.map_map]
    apply List.map_congr_left
    intro c hc
    simp [pyIntOf, Function.comp, h c hc]

/-- Witness for C9: entering "128" after the single preselected count 72
appends three elements that convert to 1, 2 and 8. -/
theorem C9_witness :
    (pyListAddStr [PyListElem.int 72] "128").length
      = [PyListElem.int 72].length + "128".length ∧
    (pyListAddStr [PyListElem.int 72] "128").take [PyListElem.int 72].length
      = [PyListElem.int 72] ∧
    ((pyListAddStr [PyListElem.int 72] "128").drop [PyListElem.int 72].length).map pyIntOf
      = "128".toList.map (fun c => some ((c.toNat : Int) - 48)) :=
  C9_interactive_custom_counts_split [PyListElem.int 72] "128" (by decide)

/-- C10: a falsy executable-name argument (None or the empty string) makes
the `MetisPartitioner` constructor fall back to the default binary name
"fesom_ini"; when that resolved name is not found on PATH the constructor
raises `MetisPartitionerError`, and since it runs before the partition loop,
`main` aborts with the working directory untouched: no configuration file has
been written. -/
theorem C10_executable_resolution (bin : Option String) (which : String → Bool)
    (template : NmlDoc) (p : String) (counts : List Int)
    (oa ob oc : Option NmlValue) (cav : Bool) (ec : Int → Nat) (fs : FileSystem)
    (hnf : which (resolvedBin bin) = false) :
    ((bin = none ∨ bin = some "") → resolvedBin bin = "fesom_ini") ∧
    MetisPartitioner.init bin which
      = .error (.metisPartitionerError (resolvedBin bin ++ " not found on PATH.")) ∧
    main_run template p counts oa ob oc cav bin which ec fs
      = (fs, [], some (.metisPartitionerError (resolvedBin bin ++ " not found on PATH."))) := by
  have hinit : MetisPartitioner.init bin which
      = .error (.metisPartitionerError (resolvedBin bin ++ " not found on PATH.")) := by
    simp [MetisPartitioner.init, hnf]
  refine ⟨?_, hinit, ?_⟩
  · rintro (rfl | rfl) <;> rfl
  · simp [main_run, hinit]

/-- Witness for C10: no binary name is supplied, nothing is on PATH, and
`main` fails before writing anything to the empty working directory. -/
theorem C10_witness :
    (((none : Option String) = none ∨ (none : Option String) = some "")
      → resolvedBin none = "fesom_ini") ∧
    MetisPartitioner.init none (fun _ => false)
      = .error (.metisPartitionerError (resolvedBin none ++ " not found on PATH.")) ∧
    main_run templateDoc "/data/mesh1" [288] none none none false none
        (fun _ => false) (fun _ => 0) []
      = ([], [], some (.metisPartitionerError (resolvedBin none ++ " not found on PATH."))) :=
  C10_executable_resolution none (fun _ => false) templateDoc "/data/mesh1" [288]
    none none none false (fun _ => 0) [] rfl

/-- C3 counterexample: supplying only alpha (beta and gamma absent) does not
make `prepare_namelist` fail; it silently applies a partial rotation, setting
`geometry.alphaeuler` to the supplied value while `geometry.betaeuler` keeps
its template value. -/
theorem C3_counterexample :
    (prepare_namelist templateDoc "/data/mesh1" 288 (some (.rat 10)) none none
        false).isSome = true ∧
    (prepare_namelist templateDoc "/data/mesh1" 288 (some (.rat 10)) none none
        false).bind (fun d => getField d "geometry" "alphaeuler")
      = some (.rat 10) ∧
    (prepare_namelist templateDoc "/data/mesh1" 288 (some (.rat 10)) none none
        false).bind (fun d => getField d "geometry" "betaeuler")
      = some (.rat 0) :=
  ⟨rfl, rfl, rfl⟩

/-- C3 amended: rotation is applied per angle, not all-or-nothing: each
supplied Euler angle is set to exactly the supplied value and each absent
angle keeps the template value, with no failure on a partial rotation; in
particular when all three angles are supplied, `geometry.alphaeuler`,
`geometry.betaeuler` and `geometry.gammaeuler` are set to exactly the
supplied values. -/
theorem C3_rotation_applied_per_angle (template : NmlDoc) (p : String) (n : Int)
    (oa ob oc : Option NmlValue) (cav : Bool) (d' : NmlDoc)
    (h : prepare_namelist template p n oa ob oc cav = some d') :
    (oa ≠ none → getField d' "geometry" "alphaeuler" = oa) ∧
    (oa = none → getField d' "geometry" "alphaeuler"
      = getField template "geometry" "alphaeuler") ∧
    (ob ≠ none → getField d' "geometry" "betaeuler" = ob) ∧
    (ob = none → getField d' "geometry" "betaeuler"
      = getField template "geometry" "betaeuler") ∧
    (oc ≠ none → getField d' "geometry" "gammaeuler" = oc) ∧
    (oc = none → getField d' "geometry" "gammaeuler"
      = getField template "geometry" "gammaeuler") := by
  obtain ⟨d1, d2, d3, d4, d5, h1, h2, h3, h4, h5, hcav⟩ :=
    prepare_namelist_chain template p n oa ob oc cav d' h
  rw [set_partitioning, Option.bind_eq_some] at h2
  obtain ⟨dm, h2a, h2b⟩ := h2
  have tailA : getField d' "geometry" "alphaeuler"
      = getField d5 "geometry" "alphaeuler" :=
    getField_cavity_tail d5 d' cav _ _ hcav (Or.inl (by decide))
      (Or.inl (by decide)) (Or.inl (by decide))
  have tailB : getField d' "geometry" "betaeuler"
      = getField d5 "geometry" "betaeuler" :=
    getField_cavity_tail d5 d' cav _ _ hcav (Or.inl (by decide))
      (Or.inl (by decide)) (Or.inl (by decide))
  have tailC : getField d' "geometry" "gammaeuler"
      = getField d5 "geometry" "gammaeuler" :=
    getField_cavity_tail d5 d' cav _ _ hcav (Or.inl (by decide))
      (Or.inl (by decide)) (Or.inl (by decide))
  have a54 : getField d5 "geometry" "alphaeuler"
      = getField d4 "geometry" "alphaeuler" :=
    getField_setOpt_frame d4 d5 "geometry" "gammaeuler" "geometry" "alphaeuler"
      oc h5 (Or.inr (by decide))
  have a43 : getField d4 "geometry" "alphaeuler"
      = getField d3 "geometry" "alphaeuler" :=
    getField_setOpt_frame d3 d4 "geometry" "betaeuler" "geometry" "alphaeuler"
      ob h4 (Or.inr (by decide))
  have b54 : getField d5 "geometry" "betaeuler"
      = getField d4 "geometry" "betaeuler" :=
    getField_setOpt_frame d4 d5 "geometry" "gammaeuler" "geometry" "betaeuler"
      oc h5 (Or.inr (by decide))
  refine ⟨?_, ?_, ?_, ?_, ?_, ?_⟩
  · intro ha
    cases oa with
    | none => exact absurd rfl ha
    | some a =>
        rw [tailA, a54, a43]
        exact getField_setOpt_self d2 d3 _ _ a h3
  · intro ha
    subst ha
    have hd3 : d2 = d3 := by simpa [setOpt] using h3
    rw [tailA, a54, a43, ← hd3,
        getField_setField_frame dm d2 "machine" "n_part" (.int n)
          "geometry" "alphaeuler" h2b (Or.inl (by decide)),
        getField_setField_frame d1 dm "machine" "n_levels" (.int 1)
          "geometry" "alphaeuler" h2a (Or.inl (by decide)),
        getField_setField_frame template d1 "paths" "meshpath" (.str p)
          "geometry" "alphaeuler" h1 (Or.inl (by decide))]
  · intro hb
    cases ob with
    | none => exact absurd rfl hb
    | some b =>
        rw [tailB, b54]
        exact getField_setOpt_self d3 d4 _ _ b h4
  · intro hb
    subst hb
    have hd4 : d3 = d4 := by simpa [setOpt] using h4
    rw [tailB, b54, ← hd4,
        getField_setOpt_frame d2 d3 "geometry" "alphaeuler" "geometry" "betaeuler"
          oa h3 (Or.inr (by decide)),
        getField_setField_frame dm d2 "machine" "n_part" (.int n)
          "geometry" "betaeuler" h2b (Or.inl (by decide)),
        getField_setField_frame d1 dm "machine" "n_levels" (.int 1)
          "geometry" "betaeuler" h2a (Or.inl (by decide)),
        getField_setField_frame template d1 "paths" "meshpath" (.str p)
          "geometry" "betaeuler" h1 (Or.inl (by decide))]
  · intro hc
    cases oc with
    | none => exact absurd rfl hc
    | some c =>
        rw [tailC]
        exact getField_setOpt_self d4 d5 _ _ c h5
  · intro hc
    subst hc
    have hd5 : d4 = d5 := by simpa [setOpt] using h5
    rw [tailC, ← hd5,
        getField_setOpt_frame d3 d4 "geometry" "betaeuler" "geometry" "gammaeuler"
          ob h4 (Or.inr (by decide)),
        getField_setOpt_frame d2 d3 "geometry" "alphaeuler" "geometry" "gammaeuler"
          oa h3 (Or.inr (by decide)),
        getField_setField_frame dm d2 "machine" "n_part" (.int n)
          "geometry" "gammaeuler" h2b (Or.inl (by decide)),
        getField_setField_frame d1 dm "machine" "n_levels" (.int 1)
          "geometry" "gammaeuler" h2a (Or.inl (by decide)),
        getField_setField_frame template d1 "paths" "meshpath" (.str p)
          "geometry" "gammaeuler" h1 (Or.inl (by decide))]

/-- Witness for the amended C3: all three angles supplied on the
representative template are all set to exactly the supplied values. -/
theorem C3_witness :
    ((some (NmlValue.rat 10) : Option NmlValue) ≠ none →
      getField ((prepare_namelist templateDoc "/data/mesh1" 288 (some (.rat 10))
          (some (.rat 20)) (some (.rat 30)) false).getD []) "geometry" "alphaeuler"
        = some (NmlValue.rat 10)) ∧
    ((some (NmlValue.rat 10) : Option NmlValue) = none →
      getField ((prepare_namelist templateDoc "/data/mesh1" 288 (some (.rat 10))
          (some (.rat 20)) (some (.rat 30)) false).getD []) "geometry" "alphaeuler"
        = getField templateDoc "geometry" "alphaeuler") ∧
    ((some (NmlValue.rat 20) : Option NmlValue) ≠ none →
      getField ((prepare_namelist templateDoc "/data/mesh1" 288 (some (.rat 10))
          (some (.rat 20)) (some (.rat 30)) false).getD []) "geometry" "betaeuler"
        = some (NmlValue.rat 20)) ∧
    ((some (NmlValue.rat 20) : Option NmlValue) = none →
      getField ((prepare_namelist templateDoc "/data/mesh1" 288 (some (.rat 10))
          (some (.rat 20)) (some (.rat 30)) false).getD []) "geometry" "betaeuler"
        = getField templateDoc "geometry" "betaeuler") ∧
    ((some (NmlValue.rat 30) : Option NmlValue) ≠ none →
      getField ((prepare_namelist templateDoc "/data/mesh1" 288 (some (.rat 10))
          (some (.rat 20)) (some (.rat 30)) false).getD []) "geometry" "gammaeuler"
        = some (NmlValue.rat 30)) ∧
    ((some (NmlValue.rat 30) : Option NmlValue) = none →
      getField ((prepare_namelist templateDoc "/data/mesh1" 288 (some (.rat 10))
          (some (.rat 20)) (some (.rat 30)) false).getD []) "geometry" "gammaeuler"
        = getField templateDoc "geometry" "gammaeuler") :=
  C3_rotation_applied_per_angle templateDoc "/data/mesh1" 288 (some (.rat 10))
    (some (.rat 20)) (some (.rat 30)) false
    ((prepare_namelist templateDoc "/data/mesh1" 288 (some (.rat 10))
      (some (.rat 20)) (some (.rat 30)) false).getD []) rfl

/-- C5: when the cavity flag is enabled, building the configuration sets
`ale_def.use_partial_cell`, `run_config.use_cavity` and
`run_config.use_cavity_partial_cell` all to true; when it is disabled, those
three fields keep exactly the values they had in the template. -/
theorem C5_cavity_flag (template : NmlDoc) (p : String) (n : Int)
    (oa ob oc : Option NmlValue) (dOn dOff : NmlDoc)
    (hOn : prepare_namelist template p n oa ob oc true = some dOn)
    (hOff : prepare_namelist template p n oa ob oc false = some dOff) :
    getField dOn "ale_def" "use_partial_cell" = some (.bool true) ∧
    getField dOn "run_config" "use_cavity" = some (.bool true) ∧
    getField dOn "run_config" "use_cavity_partial_cell" = some (.bool true) ∧
    getField dOff "ale_def" "use_partial_cell"
      = getField template "ale_def" "use_partial_cell" ∧
    getField dOff "run_config" "use_cavity"
      = getField template "run_config" "use_cavity" ∧
    getField dOff "run_config" "use_cavity_partial_cell"
      = getField template "run_config" "use_cavity_partial_cell" := by
  obtain ⟨d1, d2, d3, d4, d5, h1, h2, h3, h4, h5, hcav⟩ :=
    prepare_namelist_chain template p n oa ob oc true dOn hOn
  obtain ⟨e1, e2, e3, e4, e5, g1, g2, g3, g4, g5, gcav⟩ :=
    prepare_namelist_chain template p n oa ob oc false dOff hOff
  rcases hcav with ⟨hfalse, -⟩ | ⟨-, d6, d7, h6, h7, h8⟩
  · exact absurd hfalse (by decide)
  rcases gcav with ⟨-, rfl⟩ | ⟨htrue, -⟩
  swap
  · exact absurd htrue (by decide)
  refine ⟨?_, ?_, ?_, ?_, ?_, ?_⟩
  · rw [getField_setField_frame d7 dOn "run_config" "use_cavity_partial_cell"
        (.bool true) "ale_def" "use_partial_cell" h8 (Or.inl (by decide)),
        getField_setField_frame d6 d7 "run_config" "use_cavity" (.bool true)
        "ale_def" "use_partial_cell" h7 (Or.inl (by decide))]
    exact getField_setField_self d5 d6 _ _ _ h6
  · rw [getField_setField_frame d7 dOn "run_config" "use_cavity_partial_cell"
        (.bool true) "run_config" "use_cavity" h8 (Or.inr (by decide))]
    exact getField_setField_self d6 d7 _ _ _ h7
  · exact getField_setField_self d7 dOn _ _ _ h8
  · exact getField_prepare_head template e1 e2 e3 e4 dOff p n oa ob oc
      "ale_def" "use_partial_cell" g1 g2 g3 g4 g5 (Or.inl (by decide))
      (Or.inl (by decide)) (Or.inl (by decide)) (Or.inl (by decide))
      (Or.inl (by decide)) (Or.inl (by decide))
  · exact getField_prepare_head template e1 e2 e3 e4 dOff p n oa ob oc
      "run_config" "use_cavity" g1 g2 g3 g4 g5 (Or.inl (by decide))
      (Or.inl (by decide)) (Or.inl (by decide)) (Or.inl (by decide))
      (Or.inl (by decide)) (Or.inl (by decide))
  · exact getField_prepare_head template e1 e2 e3 e4 dOff p n oa ob oc
      "run_config" "use_cavity_partial_cell" g1 g2 g3 g4 g5 (Or.inl (by decide))
      (Or.inl (by decide)) (Or.inl (by decide)) (Or.inl (by decide))
      (Or.inl (by decide)) (Or.inl (by decide))

/-- Witness for C5 on the representative template, where all three cavity
fields start false. -/
theorem C5_witness :
    getField ((prepare_namelist templateDoc "/data/mesh1" 288 none none none
        true).getD []) "ale_def" "use_partial_cell" = some (.bool true) ∧
    getField ((prepare_namelist templateDoc "/data/mesh1" 288 none none none
        true).getD []) "run_config" "use_cavity" = some (.bool true) ∧
    getField ((prepare_namelist templateDoc "/data/mesh1" 288 none none none
        true).getD []) "run_config" "use_cavity_partial_cell" = some (.bool true) ∧
    getField ((prepare_namelist templateDoc "/data/mesh1" 288 none none none
        false).getD []) "ale_def" "use_partial_cell"
      = getField templateDoc "ale_def" "use_partial_cell" ∧
    getField ((prepare_namelist templateDoc "/data/mesh1" 288 none none none
        false).getD []) "run_config" "use_cavity"
      = getField templateDoc "run_config" "use_cavity" ∧
    getField ((prepare_namelist templateDoc "/data/mesh1" 288 none none none
        false).getD []) "run_config" "use_cavity_partial_cell"
      = getField templateDoc "run_config" "use_cavity_partial_cell" :=
  C5_cavity_flag templateDoc "/data/mesh1" 288 none none none
    ((prepare_namelist templateDoc "/data/mesh1" 288 none none none true).getD [])
    ((prepare_namelist templateDoc "/data/mesh1" 288 none none none false).getD [])
    rfl rfl

/-- C7: frame property of `prepare_namelist` (the pure composition of the
apply steps, which perform no I/O by construction): every section/field pair
other than `paths.meshpath`, `machine.n_levels`, `machine.n_part`,
`geometry.alphaeuler`, `geometry.betaeuler`, `geometry.gammaeuler`,
`ale_def.use_partial_cell`, `run_config.use_cavity` and
`run_config.use_cavity_partial_cell` reads the same as in the template. -/
theorem C7_prepare_touches_only_listed_fields (template : NmlDoc) (p : String)
    (n : Int) (oa ob oc : Option NmlValue) (cav : Bool) (d' : NmlDoc)
    (s f : String)
    (h : prepare_namelist template p n oa ob oc cav = some d')
    (hout : ¬ touchedField s f) :
    getField d' s f = getField template s f := by
  obtain ⟨d1, d2, d3, d4, d5, h1, h2, h3, h4, h5, hcav⟩ :=
    prepare_namelist_chain template p n oa ob oc cav d' h
  simp only [touchedField, not_or, not_and_or] at hout
  obtain ⟨t1, t2, t3, t4, t5, t6, t7, t8, t9⟩ := hout
  rw [getField_cavity_tail d5 d' cav s f hcav t7 t8 t9]
  exact getField_prepare_head template d1 d2 d3 d4 d5 p n oa ob oc s f
    h1 h2 h3 h4 h5 t1 t2 t3 t4 t5 t6

/-- Witness for C7: the untouched field `run_config.restart_length` of the
representative template survives a full build with rotation and cavity
enabled. -/
theorem C7_witness :
    getField ((prepare_namelist templateDoc "/data/mesh1" 288 (some (.rat 10))
        (some (.rat 20)) (some (.rat 30)) true).getD [])
        "run_config" "restart_length"
      = getField templateDoc "run_config" "restart_length" :=
  C7_prepare_touches_only_listed_fields templateDoc "/data/mesh1" 288
    (some (.rat 10)) (some (.rat 20)) (some (.rat 30)) true
    ((prepare_namelist templateDoc "/data/mesh1" 288 (some (.rat 10))
      (some (.rat 20)) (some (.rat 30)) true).getD [])
    "run_config" "restart_length" rfl (by decide)
